import Mathlib

/-!
Verification of the Glue-export-to-Terraform pipeline (`src/main.py`).

The script is a linear batch pipeline: enumerate Glue jobs, normalize each
job record into a flat attribute dictionary (`process_job_details`), emit a
Terraform project (`create_terraform_files`), and publish the tree to S3
(`upload_to_s3`).  This file gives a shallow embedding of those functions:

* Python values occurring in job records are modelled by `PyVal`
  (`None`, strings, ints, datetimes, lists, dicts, and an opaque
  non-JSON-serializable object `vObj`);
* Python exceptions are modelled by `Except Unit`;
* the provider (boto3 Glue client) is modelled by explicit parameters:
  the job list, and a lookup function for security configurations where
  `none` models `EntityNotFoundException`;
* the S3 service is modelled by a function from keys to `HeadResult`
  (object found / 404 / other client error);
* file emission is modelled by returning the written contents, and the
  local file system by a map from paths to contents.
-/

/- A Python value as it occurs in Glue job records.  Dicts and lists are
mutually inductive with `PyVal` so that every function on them is plain
structural recursion.  `vObj` models an arbitrary object that
`json.dump` cannot encode and that is not a `datetime`. -/
mutual

inductive PyVal : Type where
  | vNone : PyVal
  | vStr (s : String) : PyVal
  | vInt (n : Int) : PyVal
  | vDatetime (year month day hour minute second : Nat) : PyVal
  | vObj (tag : String) : PyVal
  | vList (l : PyItems) : PyVal
  | vDict (d : PyFields) : PyVal

inductive PyItems : Type where
  | nil : PyItems
  | cons (v : PyVal) (rest : PyItems) : PyItems

inductive PyFields : Type where
  | nil : PyFields
  | cons (k : String) (v : PyVal) (rest : PyFields) : PyFields

end

/-- Build a `PyFields` dictionary from a Lean association list. -/
def PyFields.ofList (l : List (String × PyVal)) : PyFields :=
  l.foldr (fun e rest => PyFields.cons e.1 e.2 rest) PyFields.nil

/-- Python `d[k]` / `d.get(k)`: first (and in a real dict, only) binding
of the key, scanning left to right. -/
def pyLookup : PyFields → String → Option PyVal
  | PyFields.nil, _ => none
  | PyFields.cons k v rest, key => if k = key then some v else pyLookup rest key

/-- Python `d.get(k, default)`. -/
def pyGet (d : PyFields) (key : String) (dflt : PyVal) : PyVal :=
  (pyLookup d key).getD dflt

/-- Python `d[k] = v`: replace the value in place if the key is bound,
append a new binding otherwise. -/
def fieldsSet : PyFields → String → PyVal → PyFields
  | PyFields.nil, key, v => PyFields.cons key v PyFields.nil
  | PyFields.cons k w rest, key, v =>
      if k = key then PyFields.cons k v rest else PyFields.cons k w (fieldsSet rest key v)

/-- Python truthiness of a `PyVal` (`if x:`). -/
def truthy : PyVal → Bool
  | PyVal.vNone => false
  | PyVal.vStr s => s != ""
  | PyVal.vInt n => n != 0
  | PyVal.vDatetime _ _ _ _ _ _ => true
  | PyVal.vObj _ => true
  | PyVal.vList PyItems.nil => false
  | PyVal.vList (PyItems.cons _ _) => true
  | PyVal.vDict PyFields.nil => false
  | PyVal.vDict (PyFields.cons _ _ _) => true

/-- Zero-padded two-digit decimal, as produced by `strftime`. -/
def pad2 (n : Nat) : String :=
  if n < 10 then "0" ++ toString n else toString n

/-- Zero-padded four-digit decimal, as produced by `strftime` for `%Y`. -/
def pad4 (n : Nat) : String :=
  if n < 10 then "000" ++ toString n
  else if n < 100 then "00" ++ toString n
  else if n < 1000 then "0" ++ toString n
  else toString n

/-- `obj.strftime('%Y-%m-%dT%H:%M:%S')` on a datetime. -/
def strftimeISO (year month day hour minute second : Nat) : String :=
  pad4 year ++ "-" ++ pad2 month ++ "-" ++ pad2 day ++ "T" ++
  pad2 hour ++ ":" ++ pad2 minute ++ ":" ++ pad2 second

/-- `datetime_converter` (src/main.py lines 53-56): datetimes become
`%Y-%m-%dT%H:%M:%S` strings, anything else raises `TypeError`. -/
def datetime_converter : PyVal → Except Unit String
  | PyVal.vDatetime y mo d h mi s => Except.ok (strftimeISO y mo d h mi s)
  | _ => Except.error ()

/-- Python `str(x)` as used in f-strings.  Job names coming from the
provider are strings; renderings of the remaining shapes are simplified
(the claims only ever render strings, ints and `None`). -/
def pyStrOf : PyVal → String
  | PyVal.vNone => "None"
  | PyVal.vStr s => s
  | PyVal.vInt n => toString n
  | PyVal.vDatetime y mo d h mi s =>
      pad4 y ++ "-" ++ pad2 mo ++ "-" ++ pad2 d ++ " " ++
      pad2 h ++ ":" ++ pad2 mi ++ ":" ++ pad2 s
  | PyVal.vObj tag => tag
  | PyVal.vList _ => "[...]"
  | PyVal.vDict _ => "\x7b...\x7d"

/-- Escape of one character inside a JSON string literal (quote and
backslash; provider data is assumed printable ASCII otherwise, as in
`json.dump`'s common case). -/
def jsonEscapeChar (c : Char) : String :=
  if c = '"' then "\\\"" else if c = '\\' then "\\\\" else String.singleton c

/-- A JSON string literal. -/
def jsonQuote (s : String) : String :=
  "\"" ++ String.join (s.toList.map jsonEscapeChar) ++ "\""

/-- `n` spaces. -/
def spaces (n : Nat) : String :=
  String.mk (List.replicate n ' ')

mutual

/-- `json.dump(v, f, indent=2, default=datetime_converter)` rendered to a
string; `ind` is the indentation column of the value's closing bracket.
Non-serializable values (`vObj`) make `datetime_converter` raise
`TypeError`, which surfaces as `Except.error`. -/
def jsonOfVal (ind : Nat) : PyVal → Except Unit String
  | PyVal.vNone => Except.ok "null"
  | PyVal.vStr s => Except.ok (jsonQuote s)
  | PyVal.vInt n => Except.ok (toString n)
  | PyVal.vDatetime y mo d h mi s =>
      match datetime_converter (PyVal.vDatetime y mo d h mi s) with
      | Except.ok str => Except.ok (jsonQuote str)
      | Except.error e => Except.error e
  | PyVal.vObj tag =>
      match datetime_converter (PyVal.vObj tag) with
      | Except.ok str => Except.ok (jsonQuote str)
      | Except.error e => Except.error e
  | PyVal.vList l =>
      match l with
      | PyItems.nil => Except.ok "[]"
      | PyItems.cons _ _ =>
          match jsonOfItems (ind + 2) l with
          | Except.error e => Except.error e
          | Except.ok lines =>
              Except.ok ("[\n" ++ String.intercalate ",\n" lines ++ "\n" ++ spaces ind ++ "]")
  | PyVal.vDict d =>
      match d with
      | PyFields.nil => Except.ok "\x7b\x7d"
      | PyFields.cons _ _ _ =>
          match jsonOfEntries (ind + 2) d with
          | Except.error e => Except.error e
          | Except.ok lines =>
              Except.ok ("\x7b\n" ++ String.intercalate ",\n" lines ++ "\n" ++ spaces ind ++ "\x7d")

/-- The rendered element lines of a JSON array at indentation `ind`. -/
def jsonOfItems (ind : Nat) : PyItems → Except Unit (List String)
  | PyItems.nil => Except.ok []
  | PyItems.cons v rest =>
      match jsonOfVal ind v with
      | Except.error e => Except.error e
      | Except.ok sv =>
          match jsonOfItems ind rest with
          | Except.error e => Except.error e
          | Except.ok srest => Except.ok ((spaces ind ++ sv) :: srest)

/-- The rendered `"key": value` lines of a JSON object at indentation `ind`. -/
def jsonOfEntries (ind : Nat) : PyFields → Except Unit (List String)
  | PyFields.nil => Except.ok []
  | PyFields.cons k v rest =>
      match jsonOfVal ind v with
      | Except.error e => Except.error e
      | Except.ok sv =>
          match jsonOfEntries ind rest with
          | Except.error e => Except.error e
          | Except.ok srest => Except.ok ((spaces ind ++ jsonQuote k ++ ": " ++ sv) :: srest)

end

/-- The model of the Glue security-configuration store: `none` models the
provider raising `EntityNotFoundException` for that name, `some cfg`
models a successful `get_security_configuration` response. -/
def SecEnv : Type := PyVal → Option PyVal

/-- `get_security_configuration` (src/main.py lines 25-30): returns the
resolved SecurityConfiguration object, or Python `None` when the provider
reports `EntityNotFoundException`. -/
def get_security_configuration (env : SecEnv) (config_name : PyVal) : PyVal :=
  match env config_name with
  | some cfg => cfg
  | none => PyVal.vNone

/-- The `connections` entry of the details dict (src/main.py line 67):
`job.get('Connections', {}).get('Connections', [])`.  The inner `.get`
raises `AttributeError` when the value of `Connections` is not a dict. -/
def connectionsField (job : PyFields) : Except Unit PyVal :=
  match pyGet job "Connections" (PyVal.vDict PyFields.nil) with
  | PyVal.vDict d => Except.ok ((pyLookup d "Connections").getD (PyVal.vList PyItems.nil))
  | _ => Except.error ()

/-- The `job_details` dict literal (src/main.py lines 62-76), given the
already-evaluated `connections` entry. -/
def baseDetails (job : PyFields) (conns : PyVal) : PyFields :=
  PyFields.ofList [
    ("name", pyGet job "Name" (PyVal.vStr "")),
    ("role_arn", pyGet job "Role" (PyVal.vStr "")),
    ("command", pyGet job "Command" (PyVal.vDict PyFields.nil)),
    ("max_retries", pyGet job "MaxRetries" (PyVal.vInt 0)),
    ("connections", conns),
    ("default_arguments", pyGet job "DefaultArguments" (PyVal.vDict PyFields.nil)),
    ("description", pyGet job "Description" (PyVal.vStr "")),
    ("glue_version", pyGet job "GlueVersion" (PyVal.vStr "")),
    ("max_capacity", pyGet job "MaxCapacity" (PyVal.vInt 0)),
    ("timeout", pyGet job "Timeout" (PyVal.vInt 2880)),
    ("worker_type", pyGet job "WorkerType" (PyVal.vStr "")),
    ("number_of_workers", pyGet job "NumberOfWorkers" (PyVal.vInt 0)),
    ("security_configuration", pyGet job "SecurityConfiguration" (PyVal.vStr ""))]

/-- Lines 79-81 of src/main.py: if the job carries a truthy
security-configuration name, the `security_configuration` entry is
overwritten with the resolved object (or `None`). -/
def detailsWithSec (env : SecEnv) (job : PyFields) (conns : PyVal) : PyFields :=
  match pyLookup job "SecurityConfiguration" with
  | some sv =>
      if truthy sv then
        fieldsSet (baseDetails job conns) "security_configuration"
          (get_security_configuration env sv)
      else baseDetails job conns
  | none => baseDetails job conns

/-- The text printed by the `except` handler of `process_job_details`
(src/main.py line 85); the Python message also appends the exception text,
elided here. -/
def errMsgFor (nameVal : PyVal) : String :=
  "Error processing job details for " ++ pyStrOf nameVal

/-- `process_job_details` (src/main.py lines 59-86).  Result:
`Except.ok (job_name, job_details, printed_lines)` models a normal
return — either the real pair or the `(None, None)` skip return from the
handler — while `Except.error ()` models an exception escaping the
function: when the record has no `Name` key, the `KeyError` from line 61
is caught but the handler's own `job['Name']` (line 85) raises again. -/
def process_job_details (env : SecEnv) (job : PyFields) :
    Except Unit (PyVal × PyVal × List String) :=
  match pyLookup job "Name" with
  | none => Except.error ()
  | some nameVal =>
      match connectionsField job with
      | Except.error _ => Except.ok (PyVal.vNone, PyVal.vNone, [errMsgFor nameVal])
      | Except.ok conns =>
          Except.ok (nameVal, PyVal.vDict (detailsWithSec env job conns), [])

/-- `glue_jobs[job_name] = job_details` (src/main.py line 119): overwrite
in place when the key is bound, append otherwise.  The Python dict is
keyed by the name object itself; the model keys it by the rendered name,
which coincides for the string names the provider supplies. -/
def glueJobsInsert (m : List (String × PyVal)) (k : String) (v : PyVal) :
    List (String × PyVal) :=
  if m.any (fun e => e.1 == k) then
    m.map (fun e => if e.1 == k then (e.1, v) else e)
  else m ++ [(k, v)]

/-- The emitted Terraform project: the four top-level file contents, the
per-job JSON writes of `terraform/files/` in write order (rendered job
name, file content), the final `glue_jobs` dict, and the printed skip
messages. -/
structure EmittedProject where
  mainTf : String
  variablesTf : String
  outputsTf : String
  tfvarsText : String
  fileWrites : List (String × String)
  glueJobs : List (String × PyVal)
  log : List String

/-- Content of `terraform/main.tf` (src/main.py lines 98-103). -/
def mainTfText : String :=
  "provider \"aws\" \x7b\n  region = var.aws_region\n\x7d\n\n" ++
  "module \"glue\" \x7b\n" ++
  "  source = \"git::https://github.com/cloudposse/terraform-aws-glue.git//modules/glue_job?ref=0.4.0\"\n" ++
  "  jobs = var.glue_jobs\n" ++
  "  tags = var.tags\n" ++
  "\x7d\n\n"

/-- Content of `terraform/variables.tf` (src/main.py lines 105-107). -/
def variablesTfText : String :=
  "variable \"aws_region\" \x7b\n  description = \"The AWS region to create resources in\"\n  type = string\n\x7d\n\n" ++
  "variable \"glue_jobs\" \x7b\n  description = \"Map of Glue Jobs configurations\"\n  type = map(any)\n\x7d\n\n" ++
  "variable \"tags\" \x7b\n  description = \"Tags to be applied to all resources\"\n  type = map(string)\n\x7d\n\n"

/-- First line of `terraform/terraform.tfvars` (src/main.py line 109). -/
def tfvarsHeader : String :=
  "aws_region = \"us-west-2\"\n\n"

/-- The `glue_jobs` block of `terraform.tfvars` (src/main.py lines
125-128), one line per key of the `glue_jobs` dict in insertion order. -/
def glueJobsBlock (names : List String) : String :=
  "glue_jobs = \x7b\n" ++
  String.join (names.map (fun n =>
    "  " ++ n ++ " = jsondecode(file(\"files/" ++ n ++ ".tfvars.json\"))\n")) ++
  "\x7d\n\n"

/-- The fixed `tags` block of `terraform.tfvars` (src/main.py lines
130-133). -/
def tagsBlock : String :=
  "tags = \x7b\n" ++
  "  owner-team-email = \"owner@example.com\"\n" ++
  "  tech-team-email  = \"tech@example.com\"\n" ++
  "\x7d\n"

/-- The per-job loop of `create_terraform_files` (src/main.py lines
116-123), with the accumulated `glue_jobs` dict, file writes and printed
lines as explicit state.  An uncaught exception from
`process_job_details` or from `json.dump` aborts the whole loop. -/
def emitLoop (env : SecEnv) :
    List PyFields → List (String × PyVal) → List (String × String) → List String →
    Except Unit (List (String × PyVal) × List (String × String) × List String)
  | [], gj, fw, lg => Except.ok (gj, fw, lg)
  | job :: rest, gj, fw, lg =>
      match process_job_details env job with
      | Except.error e => Except.error e
      | Except.ok (jn, jd, plog) =>
          if truthy jn && truthy jd then
            match jsonOfVal 0 jd with
            | Except.error e => Except.error e
            | Except.ok content =>
                emitLoop env rest (glueJobsInsert gj (pyStrOf jn) jd)
                  (fw ++ [(pyStrOf jn, content)]) (lg ++ plog)
          else emitLoop env rest gj fw (lg ++ plog)

/-- `create_terraform_files` (src/main.py lines 89-133).  The provider's
job listing is the `jobs` parameter (`get_glue_jobs`, lines 111); the
trigger listing (line 112) is enumerated but never used, so it does not
appear.  `Except.error` models an exception escaping the function and
aborting the run. -/
def create_terraform_files (env : SecEnv) (jobs : List PyFields) :
    Except Unit EmittedProject :=
  match emitLoop env jobs [] [] [] with
  | Except.error e => Except.error e
  | Except.ok (gj, fw, lg) =>
      Except.ok {
        mainTf := mainTfText
        variablesTf := variablesTfText
        outputsTf := ""
        tfvarsText := tfvarsHeader ++ glueJobsBlock (gj.map (fun e => e.1)) ++ tagsBlock
        fileWrites := fw
        glueJobs := gj
        log := lg }

/-- `bucket_uri.replace("s3://", "")` (src/main.py line 137): remove every
non-overlapping occurrence of `s3://`, scanning left to right. -/
def stripS3 : List Char → List Char
  | 's' :: '3' :: ':' :: '/' :: '/' :: rest => stripS3 rest
  | c :: rest => c :: stripS3 rest
  | [] => []

/-- `.split("/", 1)` restricted to the two-part case: the text before the
first `/` and everything after it; `none` when there is no `/`, in which
case the Python tuple unpacking on line 137 raises `ValueError`. -/
def splitFirstSlash : List Char → Option (List Char × List Char)
  | [] => none
  | c :: rest =>
      if c = '/' then some ([], rest)
      else
        match splitFirstSlash rest with
        | none => none
        | some (a, b) => some (c :: a, b)

/-- Line 137 of src/main.py:
`bucket_name, prefix = bucket_uri.replace("s3://", "").split("/", 1)`.
`Except.error` models the uncaught `ValueError` when no `/` remains. -/
def parseBucketUri (bucket_uri : String) : Except Unit (String × String) :=
  match splitFirstSlash (stripS3 bucket_uri.toList) with
  | none => Except.error ()
  | some (b, p) => Except.ok (b.asString, p.asString)

/-- Outcome of `s3_client.head_object` on one key: the object exists, the
check raises a `ClientError` with code 404, or it raises any other
`ClientError`. -/
inductive HeadResult : Type where
  | found : HeadResult
  | notFound404 : HeadResult
  | otherClientError (msg : String) : HeadResult

/-- `os.path.join(prefix, path)` for the relative paths produced here. -/
def s3KeyJoin (pfx rel : String) : String :=
  if pfx = "" then rel
  else if pfx.endsWith "/" then pfx ++ rel
  else pfx ++ "/" ++ rel

/-- What the per-file loop of `upload_to_s3` did: the keys uploaded, the
keys skipped because `head_object` found them, the keys whose existence
check failed with a non-404 error, and the printed lines, all in walk
order. -/
structure UploadOutcome where
  uploaded : List String
  skipped : List String
  checkFailed : List String
  log : List String

/-- The per-file body of `upload_to_s3` (src/main.py lines 139-153) over
the list of walked relative paths.  Every branch continues with the
remaining files. -/
def uploadWalk (head : String → HeadResult) (bucket_name pfx : String) :
    List String → UploadOutcome
  | [] => ⟨[], [], [], []⟩
  | f :: rest =>
      let key := s3KeyJoin pfx f
      let o := uploadWalk head bucket_name pfx rest
      match head key with
      | HeadResult.found =>
          ⟨o.uploaded, key :: o.skipped, o.checkFailed,
            ("File " ++ key ++ " already exists in bucket " ++ bucket_name ++
              ". Skipping upload.") :: o.log⟩
      | HeadResult.notFound404 =>
          ⟨key :: o.uploaded, o.skipped, o.checkFailed,
            ("Uploaded " ++ key ++ " to bucket " ++ bucket_name ++ ".") :: o.log⟩
      | HeadResult.otherClientError m =>
          ⟨o.uploaded, o.skipped, key :: o.checkFailed,
            ("Failed to check existence of " ++ key ++ ": " ++ m) :: o.log⟩

/-- The relative paths `os.walk('terraform')` yields for an emitted
project: the four top-level files, then one `files/<name>.tfvars.json`
per distinct written name (a duplicate job name overwrites the same
file, so the tree has it once). -/
def walkFiles (proj : EmittedProject) : List String :=
  ["main.tf", "variables.tf", "outputs.tf", "terraform.tfvars"] ++
  ((proj.fileWrites.map (fun e => e.1)).eraseDups).map
    (fun n => "files/" ++ n ++ ".tfvars.json")

/-- `upload_to_s3` (src/main.py lines 136-153): parse the bucket URI
(uncaught `ValueError` when malformed), then walk the tree.  The network
is consulted only in `uploadWalk`, so a parse failure happens before any
network call. -/
def upload_to_s3 (head : String → HeadResult) (bucket_uri : String)
    (files : List String) : Except Unit UploadOutcome :=
  match parseBucketUri bucket_uri with
  | Except.error e => Except.error e
  | Except.ok (b, p) => Except.ok (uploadWalk head b p files)

/-- The final success message (src/main.py line 159). -/
def successMsg : String :=
  "Arquivos Terraform criados e enviados para o bucket S3 com sucesso!"

/-- Observable outcome of one run of `main`: the emitted project if
`create_terraform_files` returned, the upload outcome if `upload_to_s3`
returned, whether the success message was printed, and the printed lines
of the completed phases. -/
structure RunResult where
  project : Option EmittedProject
  upload : Option UploadOutcome
  success : Bool
  log : List String

/-- `main` (src/main.py lines 156-159): emit the Terraform files, then
upload, then print the success message; an uncaught exception in either
phase stops the run there. -/
def pyMain (env : SecEnv) (jobs : List PyFields) (head : String → HeadResult)
    (bucket_uri : String) : RunResult :=
  match create_terraform_files env jobs with
  | Except.error _ => ⟨none, none, false, []⟩
  | Except.ok proj =>
      match upload_to_s3 head bucket_uri (walkFiles proj) with
      | Except.error _ => ⟨some proj, none, false, proj.log⟩
      | Except.ok up =>
          ⟨some proj, some up, true, proj.log ++ up.log ++ [successMsg]⟩

/-- A local directory tree: path to content. -/
def FS : Type := String → Option String

/-- The empty (fresh) directory. -/
def emptyFS : FS := fun _ => none

/-- Writing one file, overwriting any previous content. -/
def fsWrite (fs : FS) (p c : String) : FS :=
  fun q => if p = q then some c else fs q

/-- Performing a list of writes in order. -/
def applyWrites (fs : FS) : List (String × String) → FS
  | [] => fs
  | w :: ws => applyWrites (fsWrite fs w.1 w.2) ws

/-- The write list of an emitted project, in the order
`create_terraform_files` performs it. -/
def projectWrites (proj : EmittedProject) : List (String × String) :=
  [("terraform/main.tf", proj.mainTf),
   ("terraform/variables.tf", proj.variablesTf),
   ("terraform/outputs.tf", proj.outputsTf),
   ("terraform/terraform.tfvars", proj.tfvarsText)] ++
  proj.fileWrites.map (fun e => ("terraform/files/" ++ e.1 ++ ".tfvars.json", e.2))

/-- Emitting a project into a directory. -/
def emitTo (fs : FS) (proj : EmittedProject) : FS :=
  applyWrites fs (projectWrites proj)

/-- A security-configuration store with no entries: every lookup reports
not-found. -/
def env0 : SecEnv := fun _ => none

/-- A destination bucket with an empty prefix: every existence check
reports 404. -/
def head404 : String → HeadResult := fun _ => HeadResult.notFound404

/-- A minimal healthy job record: only the mandatory `Name`. -/
def mkJob (n : String) : PyFields :=
  PyFields.ofList [("Name", PyVal.vStr n)]

/-- A job whose extraction raises with `Name` present: its `Connections`
value is a string, so `.get('Connections', [])` on it raises
`AttributeError` (src/main.py line 67). -/
def jobFaulty : PyFields :=
  PyFields.ofList [("Name", PyVal.vStr "job3"), ("Connections", PyVal.vStr "oops")]

/-- A job record with no `Name` key at all. -/
def jobNoName : PyFields :=
  PyFields.ofList [("Role", PyVal.vStr "r")]

/-- A job whose `Name` is present but the empty string. -/
def jobEmptyName : PyFields :=
  PyFields.ofList [("Name", PyVal.vStr "")]

/-- A job carrying a non-serializable (non-datetime) value inside its
`DefaultArguments`. -/
def jobNonSer (t : String) : PyFields :=
  PyFields.ofList [("Name", PyVal.vStr "badjob"),
    ("DefaultArguments", PyVal.vDict (PyFields.cons "k" (PyVal.vObj t) PyFields.nil))]

/-- A well-formed destination URI. -/
def uriOK : String := "s3://bucket/pfx"

/-- When the record has a `Name` key and the `connections` extraction
succeeds, `process_job_details` returns the real pair: nothing else in
the function's body can raise. -/
theorem process_ok (env : SecEnv) (job : PyFields) (nv c : PyVal)
    (hn : pyLookup job "Name" = some nv)
    (hc : connectionsField job = Except.ok c) :
    process_job_details env job =
      Except.ok (nv, PyVal.vDict (detailsWithSec env job c), []) := by
  unfold process_job_details
  rw [hn, hc]

/-- If the record has no `Connections` key, the extracted `connections`
entry is the empty list. -/
theorem connectionsField_absent (job : PyFields)
    (h : pyLookup job "Connections" = none) :
    connectionsField job = Except.ok (PyVal.vList PyItems.nil) := by
  unfold connectionsField pyGet
  rw [h]
  rfl

/-- The `security_configuration` entry when the record carries no
security-configuration name: the documented default, the empty string. -/
theorem details_sec_absent (env : SecEnv) (job : PyFields) (c : PyVal)
    (h : pyLookup job "SecurityConfiguration" = none) :
    pyLookup (detailsWithSec env job c) "security_configuration" =
      some (PyVal.vStr "") := by
  unfold detailsWithSec
  rw [h]
  have hb : pyLookup (baseDetails job c) "security_configuration" =
      some (pyGet job "SecurityConfiguration" (PyVal.vStr "")) := rfl
  rw [hb]
  unfold pyGet
  rw [h]
  rfl

/-- The `security_configuration` entry when the record carries a truthy
security-configuration name: the resolved object (Python `None` when the
lookup reports not-found). -/
theorem details_sec_resolved (env : SecEnv) (job : PyFields) (c sv : PyVal)
    (h : pyLookup job "SecurityConfiguration" = some sv)
    (ht : truthy sv = true) :
    pyLookup (detailsWithSec env job c) "security_configuration" =
      some (get_security_configuration env sv) := by
  unfold detailsWithSec
  rw [h]
  simp only [ht, if_true]
  rfl

/-- The `role_arn` entry of the normalized record. -/
theorem detailsLookup_role (env : SecEnv) (job : PyFields) (c : PyVal) :
    pyLookup (detailsWithSec env job c) "role_arn" =
      some (pyGet job "Role" (PyVal.vStr "")) := by
  unfold detailsWithSec
  cases pyLookup job "SecurityConfiguration" with
  | none => rfl
  | some sv =>
    dsimp only
    by_cases ht : truthy sv = true
    · rw [if_pos ht]; rfl
    · rw [if_neg ht]; rfl

/-- The `description` entry of the normalized record. -/
theorem detailsLookup_description (env : SecEnv) (job : PyFields) (c : PyVal) :
    pyLookup (detailsWithSec env job c) "description" =
      some (pyGet job "Description" (PyVal.vStr "")) := by
  unfold detailsWithSec
  cases pyLookup job "SecurityConfiguration" with
  | none => rfl
  | some sv =>
    dsimp only
    by_cases ht : truthy sv = true
    · rw [if_pos ht]; rfl
    · rw [if_neg ht]; rfl

/-- The `worker_type` entry of the normalized record. -/
theorem detailsLookup_workerType (env : SecEnv) (job : PyFields) (c : PyVal) :
    pyLookup (detailsWithSec env job c) "worker_type" =
      some (pyGet job "WorkerType" (PyVal.vStr "")) := by
  unfold detailsWithSec
  cases pyLookup job "SecurityConfiguration" with
  | none => rfl
  | some sv =>
    dsimp only
    by_cases ht : truthy sv = true
    · rw [if_pos ht]; rfl
    · rw [if_neg ht]; rfl

/-- The `command` entry of the normalized record. -/
theorem detailsLookup_command (env : SecEnv) (job : PyFields) (c : PyVal) :
    pyLookup (detailsWithSec env job c) "command" =
      some (pyGet job "Command" (PyVal.vDict PyFields.nil)) := by
  unfold detailsWithSec
  cases pyLookup job "SecurityConfiguration" with
  | none => rfl
  | some sv =>
    dsimp only
    by_cases ht : truthy sv = true
    · rw [if_pos ht]; rfl
    · rw [if_neg ht]; rfl

/-- The `default_arguments` entry of the normalized record. -/
theorem detailsLookup_defaultArgs (env : SecEnv) (job : PyFields) (c : PyVal) :
    pyLookup (detailsWithSec env job c) "default_arguments" =
      some (pyGet job "DefaultArguments" (PyVal.vDict PyFields.nil)) := by
  unfold detailsWithSec
  cases pyLookup job "SecurityConfiguration" with
  | none => rfl
  | some sv =>
    dsimp only
    by_cases ht : truthy sv = true
    · rw [if_pos ht]; rfl
    · rw [if_neg ht]; rfl

/-- The `connections` entry of the normalized record is the value the
`connections` extraction produced. -/
theorem detailsLookup_connections (env : SecEnv) (job : PyFields) (c : PyVal) :
    pyLookup (detailsWithSec env job c) "connections" = some c := by
  unfold detailsWithSec
  cases pyLookup job "SecurityConfiguration" with
  | none => rfl
  | some sv =>
    dsimp only
    by_cases ht : truthy sv = true
    · rw [if_pos ht]; rfl
    · rw [if_neg ht]; rfl

/-- The `max_retries` entry of the normalized record. -/
theorem detailsLookup_maxRetries (env : SecEnv) (job : PyFields) (c : PyVal) :
    pyLookup (detailsWithSec env job c) "max_retries" =
      some (pyGet job "MaxRetries" (PyVal.vInt 0)) := by
  unfold detailsWithSec
  cases pyLookup job "SecurityConfiguration" with
  | none => rfl
  | some sv =>
    dsimp only
    by_cases ht : truthy sv = true
    · rw [if_pos ht]; rfl
    · rw [if_neg ht]; rfl

/-- The `max_capacity` entry of the normalized record. -/
theorem detailsLookup_maxCapacity (env : SecEnv) (job : PyFields) (c : PyVal) :
    pyLookup (detailsWithSec env job c) "max_capacity" =
      some (pyGet job "MaxCapacity" (PyVal.vInt 0)) := by
  unfold detailsWithSec
  cases pyLookup job "SecurityConfiguration" with
  | none => rfl
  | some sv =>
    dsimp only
    by_cases ht : truthy sv = true
    · rw [if_pos ht]; rfl
    · rw [if_neg ht]; rfl

/-- The `number_of_workers` entry of the normalized record. -/
theorem detailsLookup_numWorkers (env : SecEnv) (job : PyFields) (c : PyVal) :
    pyLookup (detailsWithSec env job c) "number_of_workers" =
      some (pyGet job "NumberOfWorkers" (PyVal.vInt 0)) := by
  unfold detailsWithSec
  cases pyLookup job "SecurityConfiguration" with
  | none => rfl
  | some sv =>
    dsimp only
    by_cases ht : truthy sv = true
    · rw [if_pos ht]; rfl
    · rw [if_neg ht]; rfl

/-- The `timeout` entry of the normalized record. -/
theorem detailsLookup_timeout (env : SecEnv) (job : PyFields) (c : PyVal) :
    pyLookup (detailsWithSec env job c) "timeout" =
      some (pyGet job "Timeout" (PyVal.vInt 2880)) := by
  unfold detailsWithSec
  cases pyLookup job "SecurityConfiguration" with
  | none => rfl
  | some sv =>
    dsimp only
    by_cases ht : truthy sv = true
    · rw [if_pos ht]; rfl
    · rw [if_neg ht]; rfl

/-- A job record carrying a security-configuration name. -/
def jobWithSec : PyFields :=
  PyFields.ofList [("Name", PyVal.vStr "j"), ("SecurityConfiguration", PyVal.vStr "sc")]

/-- C4: for every job record whose security-configuration name does not
resolve (`env sv = none`, the lookup reporting not-found), normalization
succeeds and yields a record whose `security_configuration` field is
explicitly Python `None` — the key is present and no error escapes; when
the name does resolve, the field holds the resolved SecurityConfiguration
object in place of the name. -/
theorem c4_security_resolution (env : SecEnv) (job : PyFields) (nv c sv : PyVal)
    (hn : pyLookup job "Name" = some nv)
    (hc : connectionsField job = Except.ok c)
    (hs : pyLookup job "SecurityConfiguration" = some sv)
    (ht : truthy sv = true) :
    process_job_details env job =
      Except.ok (nv, PyVal.vDict (detailsWithSec env job c), []) ∧
    (env sv = none →
      pyLookup (detailsWithSec env job c) "security_configuration" =
        some PyVal.vNone) ∧
    (∀ cfg, env sv = some cfg →
      pyLookup (detailsWithSec env job c) "security_configuration" = some cfg) := by
  refine ⟨process_ok env job nv c hn hc, ?_, ?_⟩
  · intro h
    rw [details_sec_resolved env job c sv hs ht]
    unfold get_security_configuration
    rw [h]
  · intro cfg h
    rw [details_sec_resolved env job c sv hs ht]
    unfold get_security_configuration
    rw [h]

/-- Witness for C4: a concrete job whose security-configuration name is
unknown to the store gets an explicit `None` in the field. -/
theorem c4_witness :
    pyLookup (detailsWithSec env0 jobWithSec (PyVal.vList PyItems.nil))
      "security_configuration" = some PyVal.vNone :=
  (c4_security_resolution env0 jobWithSec (PyVal.vStr "j")
    (PyVal.vList PyItems.nil) (PyVal.vStr "sc") rfl rfl rfl rfl).2.1 rfl

/-- C5: for every job record with any subset of optional fields absent,
normalization succeeds and the normalized output populates each absent
field with its documented default: empty string for role, description,
worker type and security-configuration name; empty mapping for command
and default arguments; empty sequence for connections; zero for retries,
capacity and worker count; and 2880 for timeout. -/
theorem c5_defaults (env : SecEnv) (job : PyFields) (nv c : PyVal)
    (hn : pyLookup job "Name" = some nv)
    (hc : connectionsField job = Except.ok c) :
    process_job_details env job =
      Except.ok (nv, PyVal.vDict (detailsWithSec env job c), []) ∧
    (pyLookup job "Role" = none →
      pyLookup (detailsWithSec env job c) "role_arn" = some (PyVal.vStr "")) ∧
    (pyLookup job "Description" = none →
      pyLookup (detailsWithSec env job c) "description" = some (PyVal.vStr "")) ∧
    (pyLookup job "WorkerType" = none →
      pyLookup (detailsWithSec env job c) "worker_type" = some (PyVal.vStr "")) ∧
    (pyLookup job "SecurityConfiguration" = none →
      pyLookup (detailsWithSec env job c) "security_configuration" =
        some (PyVal.vStr "")) ∧
    (pyLookup job "Command" = none →
      pyLookup (detailsWithSec env job c) "command" =
        some (PyVal.vDict PyFields.nil)) ∧
    (pyLookup job "DefaultArguments" = none →
      pyLookup (detailsWithSec env job c) "default_arguments" =
        some (PyVal.vDict PyFields.nil)) ∧
    (pyLookup job "Connections" = none →
      pyLookup (detailsWithSec env job c) "connections" =
        some (PyVal.vList PyItems.nil)) ∧
    (pyLookup job "MaxRetries" = none →
      pyLookup (detailsWithSec env job c) "max_retries" = some (PyVal.vInt 0)) ∧
    (pyLookup job "MaxCapacity" = none →
      pyLookup (detailsWithSec env job c) "max_capacity" = some (PyVal.vInt 0)) ∧
    (pyLookup job "NumberOfWorkers" = none →
      pyLookup (detailsWithSec env job c) "number_of_workers" =
        some (PyVal.vInt 0)) ∧
    (pyLookup job "Timeout" = none →
      pyLookup (detailsWithSec env job c) "timeout" = some (PyVal.vInt 2880)) := by
  refine ⟨process_ok env job nv c hn hc, ?_, ?_, ?_, ?_, ?_, ?_, ?_, ?_, ?_, ?_, ?_⟩
  · intro h
    rw [detailsLookup_role]
    unfold pyGet
    rw [h]
    rfl
  · intro h
    rw [detailsLookup_description]
    unfold pyGet
    rw [h]
    rfl
  · intro h
    rw [detailsLookup_workerType]
    unfold pyGet
    rw [h]
    rfl
  · intro h
    exact details_sec_absent env job c h
  · intro h
    rw [detailsLookup_command]
    unfold pyGet
    rw [h]
    rfl
  · intro h
    rw [detailsLookup_defaultArgs]
    unfold pyGet
    rw [h]
    rfl
  · intro h
    have h2 : Except.ok (ε := Unit) c = Except.ok (PyVal.vList PyItems.nil) :=
      hc.symm.trans (connectionsField_absent job h)
    rw [detailsLookup_connections]
    injection h2 with h3
    rw [h3]
  · intro h
    rw [detailsLookup_maxRetries]
    unfold pyGet
    rw [h]
    rfl
  · intro h
    rw [detailsLookup_maxCapacity]
    unfold pyGet
    rw [h]
    rfl
  · intro h
    rw [detailsLookup_numWorkers]
    unfold pyGet
    rw [h]
    rfl
  · intro h
    rw [detailsLookup_timeout]
    unfold pyGet
    rw [h]
    rfl

/-- Witness for C5: a job with every optional field absent gets the
documented defaults for role, command and timeout. -/
theorem c5_witness :
    pyLookup (detailsWithSec env0 (mkJob "j1") (PyVal.vList PyItems.nil))
      "role_arn" = some (PyVal.vStr "") ∧
    pyLookup (detailsWithSec env0 (mkJob "j1") (PyVal.vList PyItems.nil))
      "command" = some (PyVal.vDict PyFields.nil) ∧
    pyLookup (detailsWithSec env0 (mkJob "j1") (PyVal.vList PyItems.nil))
      "timeout" = some (PyVal.vInt 2880) :=
  have h := c5_defaults env0 (mkJob "j1") (PyVal.vStr "j1")
    (PyVal.vList PyItems.nil) rfl rfl
  ⟨h.2.1 rfl, h.2.2.2.2.2.1 rfl, h.2.2.2.2.2.2.2.2.2.2.2 rfl⟩

/-- The five-job run with one faulty job whose `Name` is present. -/
def fiveJobsOneFaulty : List PyFields :=
  [mkJob "j1", mkJob "j2", jobFaulty, mkJob "j4", mkJob "j5"]

/-- C1 (amended): for every job record that contains the `Name` key, any
exception raised during extraction of that job's details is caught inside
`process_job_details`, a message naming the job is logged, and the job is
skipped while the run continues; in particular one faulty job with `Name`
present among five yields exactly four emitted JSON files, a logged skip
message naming it, and the run still reaches the success message.  (The
original claim quantified over every job record; a record lacking `Name`
instead re-raises inside the handler, see the counterexample.) -/
theorem c1_skip_and_continue :
    (∀ (env : SecEnv) (job : PyFields) (nv : PyVal),
      pyLookup job "Name" = some nv →
      connectionsField job = Except.error () →
      process_job_details env job =
        Except.ok (PyVal.vNone, PyVal.vNone, [errMsgFor nv])) ∧
    (pyMain env0 fiveJobsOneFaulty head404 uriOK).success = true ∧
    ((pyMain env0 fiveJobsOneFaulty head404 uriOK).project.map
      (fun p => p.fileWrites.map (fun e => e.1))) = some ["j1", "j2", "j4", "j5"] ∧
    errMsgFor (PyVal.vStr "job3") ∈ (pyMain env0 fiveJobsOneFaulty head404 uriOK).log := by
  refine ⟨?_, rfl, rfl, by decide⟩
  intro env job nv hn hc
  unfold process_job_details
  rw [hn, hc]

/-- Witness for C1: the concrete faulty job (string-valued `Connections`)
is caught, logged with its name, and skipped. -/
theorem c1_witness :
    process_job_details env0 jobFaulty =
      Except.ok (PyVal.vNone, PyVal.vNone, [errMsgFor (PyVal.vStr "job3")]) :=
  c1_skip_and_continue.1 env0 jobFaulty (PyVal.vStr "job3") rfl rfl

/-- Counterexample to C1 as stated: a job record lacking the `Name` key
raises `KeyError` inside the `try`, and the handler's own `job['Name']`
(line 85) raises again, so the exception is not caught, no file at all is
emitted, and the run never reaches the success message — five jobs with
this one faulty job do not yield four JSON files. -/
theorem c1_counterexample :
    process_job_details env0 jobNoName = Except.error () ∧
    pyMain env0 [mkJob "j1", jobNoName, mkJob "j2", mkJob "j3", mkJob "j4"]
      head404 uriOK = ⟨none, none, false, []⟩ :=
  ⟨rfl, rfl⟩

/-- C2 (amended): a job record containing a non-serializable value
(anything `json.dump` cannot encode and that is not a datetime) makes
`json.dump` raise at line 123, which is outside the per-job `try` of
`process_job_details`: the exception is unhandled, the whole run aborts,
and the remaining jobs are not processed.  The skip-and-continue policy
does not apply to serialization. -/
theorem c2_serialization_fatal (env : SecEnv) (t : String) (rest : List PyFields) :
    create_terraform_files env (jobNonSer t :: rest) = Except.error () := rfl

/-- Counterexample to C2 as stated: with a non-serializable first job and
a healthy second job, the run crashes — the healthy job is not emitted
and the success message is never printed, so the failure is not contained
to the offending job. -/
theorem c2_counterexample :
    create_terraform_files env0 [jobNonSer "obj", mkJob "good"] = Except.error () ∧
    pyMain env0 [jobNonSer "obj", mkJob "good"] head404 uriOK =
      ⟨none, none, false, []⟩ :=
  ⟨rfl, rfl⟩

/-- The project emitted for the single healthy job `mkJob "a"`. -/
def projA : EmittedProject :=
  match create_terraform_files env0 [mkJob "a"] with
  | Except.ok p => p
  | Except.error _ => ⟨"", "", "", "", [], [], []⟩

/-- C3 (amended): a bucket URI with no `/` separator left after removing
`s3://` makes line 137 raise an uncaught `ValueError` in `upload_to_s3`.
This happens before any network call — no existence check and no upload
is performed — but only after `create_terraform_files` has already run:
local file emission is a side effect that does happen first.  (The
original claim said no side effect at all is attempted; the
counterexample shows the files are already written, and also that a URI
merely missing the `s3://` scheme is not rejected at all.) -/
theorem c3_malformed_uri (env : SecEnv) (jobs : List PyFields)
    (head : String → HeadResult) (uri : String) (proj : EmittedProject)
    (hcreate : create_terraform_files env jobs = Except.ok proj)
    (hparse : parseBucketUri uri = Except.error ()) :
    pyMain env jobs head uri = ⟨some proj, none, false, proj.log⟩ := by
  unfold pyMain upload_to_s3
  rw [hcreate, hparse]

/-- Witness for C3: the concrete run with URI `s3://nosep` stops at the
publisher with the project already emitted and no upload attempted. -/
theorem c3_witness :
    pyMain env0 [mkJob "a"] head404 "s3://nosep" =
      ⟨some projA, none, false, projA.log⟩ :=
  c3_malformed_uri env0 [mkJob "a"] head404 "s3://nosep" projA rfl rfl

/-- Counterexample to C3 as stated: with URI `s3://nosep` the run fails,
but the emitted project already contains the per-job JSON file (a local
side effect before the failure); and the URI `bkt/p`, which lacks the
leading `s3://` scheme, is not rejected — the run completes with the
success message. -/
theorem c3_counterexample :
    (pyMain env0 [mkJob "a"] head404 "s3://nosep").success = false ∧
    ((pyMain env0 [mkJob "a"] head404 "s3://nosep").project.map
      (fun p => p.fileWrites.length)) = some 1 ∧
    (pyMain env0 [mkJob "a"] head404 "bkt/p").success = true :=
  ⟨rfl, rfl, rfl⟩

/-- C9: for every job record whose `Name` field is present but equal to
the empty string, normalization succeeds (the real pair is returned), yet
the job is excluded from the emitted output — no JSON file is written and
no `glue_jobs` entry is created — because line 118 tests the returned
name for truthiness rather than for the absence of an error. -/
theorem c9_empty_name_excluded (env : SecEnv) (job : PyFields) (c : PyVal)
    (hn : pyLookup job "Name" = some (PyVal.vStr ""))
    (hc : connectionsField job = Except.ok c) :
    process_job_details env job =
      Except.ok (PyVal.vStr "", PyVal.vDict (detailsWithSec env job c), []) ∧
    create_terraform_files env [job] =
      Except.ok { mainTf := mainTfText, variablesTf := variablesTfText,
                  outputsTf := "",
                  tfvarsText := tfvarsHeader ++ glueJobsBlock [] ++ tagsBlock,
                  fileWrites := [], glueJobs := [], log := [] } := by
  have hp := process_ok env job (PyVal.vStr "") c hn hc
  refine ⟨hp, ?_⟩
  unfold create_terraform_files emitLoop
  rw [hp]
  rfl

/-- Witness for C9: the concrete empty-named job is normalized but
produces no file and no tfvars entry. -/
theorem c9_witness :
    create_terraform_files env0 [jobEmptyName] =
      Except.ok { mainTf := mainTfText, variablesTf := variablesTfText,
                  outputsTf := "",
                  tfvarsText := tfvarsHeader ++ glueJobsBlock [] ++ tagsBlock,
                  fileWrites := [], glueJobs := [], log := [] } :=
  (c9_empty_name_excluded env0 jobEmptyName (PyVal.vList PyItems.nil) rfl rfl).2

/-- C7: during publishing, for every file in the local tree: if the HEAD
existence check finds the destination key, the upload is skipped (the key
is never in the uploaded list — no overwrite) and a skip is logged; if
the check reports 404, the file is uploaded; any other check failure is
recorded per file; and every file receives exactly one logged line, so no
per-file check outcome aborts the processing of the remaining files. -/
theorem c7_publisher (head : String → HeadResult) (bucket_name pfx : String)
    (files : List String) :
    (uploadWalk head bucket_name pfx files).uploaded =
      (files.map (s3KeyJoin pfx)).filter
        (fun k => match head k with | HeadResult.notFound404 => true | _ => false) ∧
    (uploadWalk head bucket_name pfx files).skipped =
      (files.map (s3KeyJoin pfx)).filter
        (fun k => match head k with | HeadResult.found => true | _ => false) ∧
    (uploadWalk head bucket_name pfx files).checkFailed =
      (files.map (s3KeyJoin pfx)).filter
        (fun k => match head k with | HeadResult.otherClientError _ => true | _ => false) ∧
    (uploadWalk head bucket_name pfx files).log.length = files.length := by
  induction files with
  | nil => exact ⟨rfl, rfl, rfl, rfl⟩
  | cons f rest ih =>
    obtain ⟨ih1, ih2, ih3, ih4⟩ := ih
    cases hk : head (s3KeyJoin pfx f) with
    | found =>
      simp only [uploadWalk, hk, List.map_cons, List.filter_cons]
      simp [hk, ih1, ih2, ih3, ih4]
    | notFound404 =>
      simp only [uploadWalk, hk, List.map_cons, List.filter_cons]
      simp [hk, ih1, ih2, ih3, ih4]
    | otherClientError m =>
      simp only [uploadWalk, hk, List.map_cons, List.filter_cons]
      simp [hk, ih1, ih2, ih3, ih4]

/-- The rendered name under which the emitter accepts a job: `some` when
`process_job_details` returns a pair passing the truthiness test of line
118, `none` when the job is skipped, crashes, or fails that test. -/
def emittedName (env : SecEnv) (job : PyFields) : Option String :=
  match process_job_details env job with
  | Except.ok (jn, jd, _) =>
      if truthy jn && truthy jd then some (pyStrOf jn) else none
  | Except.error _ => none

/-- The names the emitter accepts over a job list, in encounter order. -/
def emittedNames (env : SecEnv) (jobs : List PyFields) : List String :=
  jobs.filterMap (emittedName env)

/-- Whether a job is successfully normalized: `process_job_details`
returns without raising and does not take the `(None, None)` skip path. -/
def normalizedOk (env : SecEnv) (job : PyFields) : Bool :=
  match process_job_details env job with
  | Except.ok (PyVal.vNone, _, _) => false
  | Except.ok _ => true
  | Except.error _ => false

/-- Inserting into the `glue_jobs` dict adds the key `k` to the key set
and changes nothing else about it. -/
theorem glueJobsInsert_keys (m : List (String × PyVal)) (k : String) (v : PyVal)
    (s : String) :
    s ∈ (glueJobsInsert m k v).map (fun e => e.1) ↔
      s ∈ m.map (fun e => e.1) ∨ s = k := by
  unfold glueJobsInsert
  by_cases hmem : m.any (fun e => e.1 == k) = true
  · rw [if_pos hmem]
    have hkeys : (m.map (fun e => if e.1 == k then (e.1, v) else e)).map
        (fun e => e.1) = m.map (fun e => e.1) := by
      rw [List.map_map]
      apply List.map_congr_left
      intro a _
      by_cases h : a.1 = k <;> simp [h]
    rw [hkeys]
    constructor
    · exact Or.inl
    · rintro (h | h)
      · exact h
      · subst h
        obtain ⟨e, he, heq⟩ := List.any_eq_true.mp hmem
        have he1 : e.1 = s := by simpa using heq
        exact he1 ▸ List.mem_map.mpr ⟨e, he, rfl⟩
  · rw [if_neg hmem]
    simp [List.map_append]

/-- Invariant of the emission loop: the names of the written JSON files
extend the accumulator by exactly the accepted names, and the key set of
the `glue_jobs` dict grows by exactly those names. -/
theorem emitLoop_names (env : SecEnv) (jobs : List PyFields) :
    ∀ gj fw lg gj2 fw2 lg2,
      emitLoop env jobs gj fw lg = Except.ok (gj2, fw2, lg2) →
      fw2.map (fun e => e.1) = fw.map (fun e => e.1) ++ emittedNames env jobs ∧
      (∀ s, s ∈ gj2.map (fun e => e.1) ↔
        s ∈ gj.map (fun e => e.1) ∨ s ∈ emittedNames env jobs) := by
  induction jobs with
  | nil =>
    intro gj fw lg gj2 fw2 lg2 h
    unfold emitLoop at h
    injection h with h
    injection h with hgj h
    injection h with hfw hlg
    subst hgj; subst hfw
    simp [emittedNames]
  | cons job rest ih =>
    intro gj fw lg gj2 fw2 lg2 h
    unfold emitLoop at h
    cases hp : process_job_details env job with
    | error e =>
      rw [hp] at h
      simp at h
    | ok trip =>
      obtain ⟨jn, jd, plog⟩ := trip
      rw [hp] at h
      dsimp only at h
      by_cases htr : (truthy jn && truthy jd) = true
      · rw [if_pos htr] at h
        cases hjs : jsonOfVal 0 jd with
        | error e =>
          rw [hjs] at h
          simp at h
        | ok content =>
          rw [hjs] at h
          obtain ⟨h1, h2⟩ := ih _ _ _ _ _ _ h
          have hen : emittedNames env (job :: rest) =
              pyStrOf jn :: emittedNames env rest := by
            unfold emittedNames
            rw [List.filterMap_cons]
            have : emittedName env job = some (pyStrOf jn) := by
              unfold emittedName
              rw [hp]
              dsimp only
              rw [if_pos htr]
            rw [this]
          refine ⟨?_, ?_⟩
          · rw [h1, hen]
            simp
          · intro s
            rw [h2 s, hen, glueJobsInsert_keys]
            simp only [List.mem_cons]
            tauto
      · rw [if_neg htr] at h
        obtain ⟨h1, h2⟩ := ih _ _ _ _ _ _ h
        have hen : emittedNames env (job :: rest) = emittedNames env rest := by
          unfold emittedNames
          rw [List.filterMap_cons]
          have : emittedName env job = none := by
            unfold emittedName
            rw [hp]
            dsimp only
            rw [if_neg htr]
          rw [this]
        exact ⟨by rw [h1, hen], fun s => by rw [h2 s, hen]⟩

/-- C6 (amended): for all runs, the `glue_jobs` block of
`terraform.tfvars` is rendered from exactly the keys of the `glue_jobs`
dict; the set of those keys equals the set of filenames written under
`terraform/files/` (with the `.tfvars.json` suffix removed); and both
equal the set of names of jobs that were successfully normalized **and**
passed the truthiness test of line 118.  (The original claim said both
sets equal the set of all successfully normalized jobs; a successfully
normalized job whose name is the empty string is excluded, see the
counterexample.) -/
theorem c6_sets_equal (env : SecEnv) (jobs : List PyFields) (proj : EmittedProject)
    (h : create_terraform_files env jobs = Except.ok proj) :
    proj.tfvarsText =
      tfvarsHeader ++ glueJobsBlock (proj.glueJobs.map (fun e => e.1)) ++ tagsBlock ∧
    (∀ s, s ∈ proj.glueJobs.map (fun e => e.1) ↔
      s ∈ proj.fileWrites.map (fun e => e.1)) ∧
    (∀ s, s ∈ proj.fileWrites.map (fun e => e.1) ↔ s ∈ emittedNames env jobs) := by
  unfold create_terraform_files at h
  cases hl : emitLoop env jobs [] [] [] with
  | error e =>
    rw [hl] at h
    simp at h
  | ok trip =>
    obtain ⟨gj, fw, lg⟩ := trip
    rw [hl] at h
    dsimp only at h
    injection h with h
    subst h
    obtain ⟨h1, h2⟩ := emitLoop_names env jobs [] [] [] gj fw lg hl
    refine ⟨rfl, ?_, ?_⟩
    · intro s
      rw [h2 s]
      simp [h1]
    · intro s
      rw [h1]
      simp

/-- Witness for C6: the single-healthy-job run satisfies the set
equalities. -/
theorem c6_witness :
    projA.tfvarsText =
      tfvarsHeader ++ glueJobsBlock (projA.glueJobs.map (fun e => e.1)) ++ tagsBlock ∧
    (∀ s, s ∈ projA.glueJobs.map (fun e => e.1) ↔
      s ∈ projA.fileWrites.map (fun e => e.1)) ∧
    (∀ s, s ∈ projA.fileWrites.map (fun e => e.1) ↔
      s ∈ emittedNames env0 [mkJob "a"]) :=
  c6_sets_equal env0 [mkJob "a"] projA rfl

/-- Counterexample to C6 as stated: a job whose `Name` is the empty
string is successfully normalized, yet the run emits no JSON file and no
tfvars entry for it, so the set of successfully normalized jobs is
strictly larger than both other sets. -/
theorem c6_counterexample :
    normalizedOk env0 jobEmptyName = true ∧
    (create_terraform_files env0 [jobEmptyName]).map (fun p => p.fileWrites) =
      Except.ok [] ∧
    (create_terraform_files env0 [jobEmptyName]).map (fun p => p.glueJobs) =
      Except.ok [] :=
  ⟨rfl, rfl, rfl⟩

/-- The last content written to `q` by a write list, if any. -/
def lastWrite : List (String × String) → String → Option String
  | [], _ => none
  | w :: ws, q =>
      match lastWrite ws q with
      | some c => some c
      | none => if w.1 = q then some w.2 else none

/-- Reading after a write list: the last write to the path wins, and an
untouched path keeps its prior content. -/
theorem applyWrites_eq (ws : List (String × String)) :
    ∀ (fs : FS) (q : String),
      applyWrites fs ws q =
        match lastWrite ws q with
        | some c => some c
        | none => fs q := by
  induction ws with
  | nil => intro fs q; rfl
  | cons w ws ih =>
    intro fs q
    show applyWrites (fsWrite fs w.1 w.2) ws q = _
    rw [ih]
    cases h : lastWrite ws q with
    | some c =>
      show some c = _
      unfold lastWrite
      rw [h]
    | none =>
      show fsWrite fs w.1 w.2 q = _
      unfold lastWrite
      rw [h]
      unfold fsWrite
      by_cases hw : w.1 = q
      · rw [if_pos hw, if_pos hw]
      · rw [if_neg hw, if_neg hw]

/-- A path that appears in a write list has a last write. -/
theorem lastWrite_isSome (ws : List (String × String)) (q : String)
    (h : q ∈ ws.map (fun w => w.1)) : ∃ c, lastWrite ws q = some c := by
  induction ws with
  | nil => simp at h
  | cons w ws ih =>
    unfold lastWrite
    cases hl : lastWrite ws q with
    | some c => exact ⟨c, rfl⟩
    | none =>
      simp only [List.map_cons, List.mem_cons] at h
      rcases h with h | h
      · exact ⟨w.2, by rw [if_pos h.symm]⟩
      · obtain ⟨c, hc⟩ := ih h
        rw [hc] at hl
        cases hl

/-- C8: emission is idempotent.  For every job list the emitter accepts,
re-applying the emitted project's writes over an already-emitted
directory changes nothing (every file ends byte-for-byte the same), and
the content of every emitted path is independent of the directory's prior
state — so two emissions into fresh directories produce byte-for-byte
identical files, all remaining content being a deterministic function of
the normalized input sequence. -/
theorem c8_emission_idempotent (env : SecEnv) (jobs : List PyFields)
    (proj : EmittedProject)
    (_h : create_terraform_files env jobs = Except.ok proj) :
    (∀ fs : FS, emitTo (emitTo fs proj) proj = emitTo fs proj) ∧
    (∀ fs1 fs2 : FS, ∀ p, p ∈ (projectWrites proj).map (fun w => w.1) →
      emitTo fs1 proj p = emitTo fs2 proj p) := by
  constructor
  · intro fs
    funext q
    unfold emitTo
    rw [applyWrites_eq, applyWrites_eq]
    cases hl : lastWrite (projectWrites proj) q with
    | some c => rfl
    | none => rfl
  · intro fs1 fs2 p hp
    obtain ⟨c, hc⟩ := lastWrite_isSome (projectWrites proj) p hp
    unfold emitTo
    rw [applyWrites_eq, applyWrites_eq, hc]

/-- Witness for C8: re-emitting the single-job project over its own
output is the identity on the directory. -/
theorem c8_witness :
    emitTo (emitTo emptyFS projA) projA = emitTo emptyFS projA :=
  (c8_emission_idempotent env0 [mkJob "a"] projA rfl).1 emptyFS

/-- `splitFirstSlash` is the split at the first `/` when one exists, and
fails otherwise. -/
theorem splitFirstSlash_eq (cs : List Char) :
    splitFirstSlash cs =
      if '/' ∈ cs then
        some (cs.takeWhile (fun c => c != '/'), (cs.dropWhile (fun c => c != '/')).tail)
      else none := by
  induction cs with
  | nil => rfl
  | cons c rest ih =>
    by_cases hc : c = '/'
    · subst hc
      simp [splitFirstSlash, List.takeWhile_cons, List.dropWhile_cons]
    · unfold splitFirstSlash
      rw [if_neg hc, ih]
      by_cases hm : '/' ∈ rest
      · rw [if_pos hm, if_pos (List.mem_cons_of_mem c hm)]
        simp [List.takeWhile_cons, List.dropWhile_cons, hc]
      · have hnc : '/' ∉ (c :: rest) := by
          intro hmem
          rcases List.mem_cons.mp hmem with h | h
          · exact hc h.symm
          · exact hm h
        rw [if_neg hm, if_neg hnc]

/-- C10: bucket-URI parsing removes every occurrence of the substring
`s3://` anywhere in the argument (not only a leading scheme prefix: the
scan of `stripS3` consumes an occurrence wherever it starts) and then
splits on the first `/`: an argument is rejected exactly when no `/`
remains after the removal, and any argument with at least one remaining
`/` is accepted, the text before the first `/` becoming the bucket name
and the remainder the key prefix. -/
theorem c10_uri_parsing (uri : String) :
    (parseBucketUri uri = Except.error () ↔ '/' ∉ stripS3 uri.toList) ∧
    ('/' ∈ stripS3 uri.toList →
      parseBucketUri uri = Except.ok
        (((stripS3 uri.toList).takeWhile (fun c => c != '/')).asString,
         (((stripS3 uri.toList).dropWhile (fun c => c != '/')).tail).asString)) ∧
    (∀ l : List Char, stripS3 ('s' :: '3' :: ':' :: '/' :: '/' :: l) = stripS3 l) ∧
    parseBucketUri "abs3://c/d" = Except.ok ("abc", "d") ∧
    parseBucketUri "bucket/pre" = Except.ok ("bucket", "pre") := by
  refine ⟨?_, ?_, fun l => rfl, rfl, rfl⟩
  · unfold parseBucketUri
    rw [splitFirstSlash_eq]
    by_cases hm : '/' ∈ stripS3 uri.toList
    · rw [if_pos hm]
      exact iff_of_false (fun h => Except.noConfusion h) (fun h => h hm)
    · rw [if_neg hm]
      exact iff_of_true rfl hm
  · intro hm
    unfold parseBucketUri
    rw [splitFirstSlash_eq, if_pos hm]

/-- Witness for C10: a well-formed URI is split into bucket and prefix,
with the leading scheme removed. -/
theorem c10_witness : parseBucketUri "s3://b/p" = Except.ok ("b", "p") :=
  ((c10_uri_parsing "s3://b/p").2.1 (by decide)).trans rfl
